import Mathlib

/-!
Shallow embedding of sensortag_weather.py, a telemetry collector that reads
environmental measurements from a SensorTag device, filters erroneous
readings, and inserts each sample as a timestamped row into a Google Sheets
worksheet.  Python floats are modelled as rationals; the dictionary of
readings produced by get_readings is modelled as a record with one field per
dictionary key; setting a field to the empty string during validation is
modelled as Option.none.  External effects (BLE reads, worksheet inserts,
session reopens) are modelled by explicit behaviour oracles passed in as
data.
-/

namespace SensortagWeather

/-- Round-half-to-even of a rational to an integer, the behaviour of the
Python built-in round on exactly representable values. -/
def roundHalfEven (x : ℚ) : ℤ :=
  if x - Int.floor x < 1/2 then Int.floor x
  else if 1/2 < x - Int.floor x then Int.floor x + 1
  else if Int.floor x % 2 = 0 then Int.floor x else Int.floor x + 1

/-- Rounding to 2 decimal digits, the round(value, 2) applied to every
reading in get_readings (line 94). -/
def round2 (x : ℚ) : ℚ := (roundHalfEven (x * 100) : ℚ) / 100

/-- The measurement channels: the keys of the readings dictionary built in
get_readings (lines 77-86). -/
inductive Channel where
  | ir_temp
  | ir
  | humidity_temp
  | humidity
  | baro_temp
  | pressure
  | light
  deriving DecidableEq, Repr

/-- The full readings dictionary produced by a successful get_readings:
every key is present with a numeric value (lines 72-96). -/
structure Readings where
  ir_temp : ℚ
  ir : ℚ
  humidity_temp : ℚ
  humidity : ℚ
  baro_temp : ℚ
  pressure : ℚ
  light : ℚ
  deriving DecidableEq, Repr

/-- The readings dictionary after the validation step of append_readings:
a field set to the empty string (an erroneous reading) is none. -/
structure VSample where
  ir_temp : Option ℚ
  ir : Option ℚ
  humidity_temp : Option ℚ
  humidity : Option ℚ
  baro_temp : Option ℚ
  pressure : Option ℚ
  light : Option ℚ
  deriving DecidableEq, Repr

/-- Dictionary lookup readings.get(col) on a validated sample. -/
def VSample.get (s : VSample) : Channel → Option ℚ
  | .ir_temp => s.ir_temp
  | .ir => s.ir
  | .humidity_temp => s.humidity_temp
  | .humidity => s.humidity
  | .baro_temp => s.baro_temp
  | .pressure => s.pressure
  | .light => s.light

/-- The erroneous-reading filter of append_readings (lines 162-166):
humidity_temp is blanked when it lies outside ir_temp plus or minus 2,
humidity is blanked when it is below 1 or above 99; every other key is left
untouched. -/
def validate (r : Readings) : VSample where
  ir_temp := some r.ir_temp
  ir := some r.ir
  humidity_temp :=
    if r.humidity_temp < r.ir_temp - 2 ∨ r.humidity_temp > r.ir_temp + 2 then none
    else some r.humidity_temp
  humidity :=
    if r.humidity < 1 ∨ r.humidity > 99 then none else some r.humidity
  baro_temp := some r.baro_temp
  pressure := some r.pressure
  light := some r.light

/-- One cell of an inserted worksheet row: the leading timestamp cell, a
numeric cell, or the empty cell produced for a missing key. -/
inductive Cell where
  | timestamp : ℕ → Cell
  | num : ℚ → Cell
  | empty
  deriving DecidableEq, Repr

/-- readings.get(col) against the default empty cell (line 170). -/
def cellOf : Option ℚ → Cell
  | some q => .num q
  | none => .empty

/-- The fixed column order of append_readings (line 168). -/
def columns : List Channel :=
  [.ir_temp, .humidity_temp, .baro_temp, .ir, .humidity, .pressure, .light]

/-- The row list passed to insert_row (line 170): the current timestamp
followed by the value of each column, missing keys as empty cells. -/
def rowCells (ts : ℕ) (v : VSample) : List Cell :=
  Cell.timestamp ts :: columns.map (fun c => cellOf (VSample.get v c))

/-- The behaviour of the SensorTag device during one get_readings call:
whether each BLE interaction (enabling the sensors, the four reads, the
disables) completes, and the pair of values each read returns.  none for a
read, or false for enable/disable, means the device raises the
connection-lost fault (BTLEException) at that point. -/
structure TagBehavior where
  enableOk : Bool
  irRead : Option (ℚ × ℚ)
  humidityRead : Option (ℚ × ℚ)
  barometerRead : Option (ℚ × ℚ)
  lightRead : Option ℚ
  disableOk : Bool
  deriving DecidableEq, Repr

/-- get_readings (lines 63-101) together with a flag recording whether the
disable_sensors call at line 91 was reached.  The body runs inside a
try block: the first fault aborts the remaining steps and the handler
returns the empty dictionary, modelled as none.  On full success every
reading is rounded to 2 decimal digits (line 94). -/
def get_readings_run (t : TagBehavior) : Option Readings × Bool :=
  if t.enableOk = false then (none, false) else
  match t.irRead with
  | none => (none, false)
  | some p1 =>
  match t.humidityRead with
  | none => (none, false)
  | some p2 =>
  match t.barometerRead with
  | none => (none, false)
  | some p3 =>
  match t.lightRead with
  | none => (none, false)
  | some l =>
  if t.disableOk = false then (none, true) else
  (some { ir_temp := round2 p1.1, ir := round2 p1.2,
          humidity_temp := round2 p2.1, humidity := round2 p2.2,
          baro_temp := round2 p3.1, pressure := round2 p3.2,
          light := round2 l }, true)

/-- The value get_readings returns to its caller. -/
def get_readings (t : TagBehavior) : Option Readings :=
  (get_readings_run t).1

/-- append_readings (lines 148-179): validates the readings, builds the row
and inserts it at the given 1-based index.  The insert_row call is the only
fallible step, modelled by the sinkOk oracle; on failure the exception
handler returns None (the STALE signal), and nothing is inserted.  On
success, some of the inserted (index, row) pair. -/
def append_readings (sinkOk : Bool) (r : Readings) (rowIdx : ℕ) (ts : ℕ) :
    Option (ℕ × List Cell) :=
  let cells := rowCells ts (validate r)
  if sinkOk then some (rowIdx, cells) else none

/-- The behaviour of the external world across loop iterations: iteration i
sees device behaviour tag i; reconnectOk i tells whether the reconnect call
of that iteration would succeed, sinkOk i whether the insert_row call would
succeed, reopenOk i whether the mid-loop login_open_sheet call would
succeed. -/
structure Env where
  tag : ℕ → TagBehavior
  reconnectOk : ℕ → Bool
  sinkOk : ℕ → Bool
  reopenOk : ℕ → Bool

/-- The observable state carried across iterations of the while loop of
start_sensortag: the 1-based insertion index (row), a generation counter
for the worksheet handle (bumped by each mid-loop reopen), the log of rows
inserted into the sheet so far, and the number of cadence sleeps
performed. -/
structure LoopState where
  row : ℕ
  session : ℕ
  appended : List (ℕ × List Cell)
  slept : ℕ
  deriving DecidableEq, Repr

/-- How a bounded run of the loop ends: still running with a state, process
terminated via sys.exit with a code, or an unhandled exception escaped the
loop. -/
inductive StepResult where
  | next : LoopState → StepResult
  | exited : ℕ → StepResult
  | crashed
  deriving DecidableEq, Repr

/-- The outcome of login_open_sheet (lines 120-145): on success the opened
worksheet, on any failure the handler prints a diagnostic and calls
sys.exit(1). -/
inductive OpenResult where
  | sheet
  | exit1
  deriving DecidableEq, Repr

/-- login_open_sheet, reduced to its outcome: a worksheet when the open
succeeds, otherwise the fatal exit path. -/
def login_open_sheet (ok : Bool) : OpenResult :=
  if ok then .sheet else .exit1

/-- One iteration of the while loop of start_sensortag (lines 196-220).
Empty readings: reconnect and continue with everything unchanged (a
reconnect failure re-raises, escaping the loop, lines 115-117).  Otherwise
append_readings runs; on success the row is recorded, the cadence sleep
happens and the index advances; on the STALE signal the worksheet is
reopened via login_open_sheet (exiting the process if that fails) and the
loop continues with index and log unchanged and no sleep. -/
def loopBody (e : Env) (i : ℕ) (s : LoopState) : StepResult :=
  match get_readings (e.tag i) with
  | none =>
      if e.reconnectOk i then .next s else .crashed
  | some r =>
      match append_readings (e.sinkOk i) r s.row i with
      | some entry =>
          .next { row := s.row + 1, session := s.session,
                  appended := s.appended ++ [entry], slept := s.slept + 1 }
      | none =>
          match login_open_sheet (e.reopenOk i) with
          | .sheet => .next { s with session := s.session + 1 }
          | .exit1 => .exited 1

/-- runFrom e i k s: run k iterations of the loop, the first one numbered
i, from state s. -/
def runFrom (e : Env) : ℕ → ℕ → LoopState → StepResult
  | _, 0, s => .next s
  | i, k + 1, s =>
      match loopBody e i s with
      | .next s2 => runFrom e (i + 1) k s2
      | .exited c => .exited c
      | .crashed => .crashed

/-- start_sensortag (lines 182-220), bounded to k loop iterations: the
initial login_open_sheet at line 189 exits the process with code 1 on
failure; otherwise the loop starts at row index 1 with nothing appended. -/
def start_sensortag (initOpenOk : Bool) (e : Env) (k : ℕ) : StepResult :=
  match login_open_sheet initOpenOk with
  | .exit1 => .exited 1
  | .sheet => runFrom e 0 k { row := 1, session := 0, appended := [], slept := 0 }

/-- The loop state right after startup. -/
def initState : LoopState :=
  { row := 1, session := 0, appended := [], slept := 0 }

/-- A device behaviour where every interaction succeeds and the light read
returns v (the other reads return fixed clean values). -/
def goodTag (v : ℚ) : TagBehavior :=
  { enableOk := true, irRead := some (20, 21), humidityRead := some (20, 50),
    barometerRead := some (22, 1000), lightRead := some v, disableOk := true }

/-- The readings dictionary get_readings produces under goodTag v. -/
def goodReadings (v : ℚ) : Readings :=
  { ir_temp := 20, ir := 21, humidity_temp := 20, humidity := 50,
    baro_temp := 22, pressure := 1000, light := v }

/-- A device behaviour where the enable step already raises the
connection-lost fault. -/
def downTag : TagBehavior :=
  { enableOk := false, irRead := none, humidityRead := none,
    barometerRead := none, lightRead := none, disableOk := false }

/-- A world where the first insert_row fails (STALE), the reopen succeeds,
and the second acquisition reads a different light value. -/
def staleEnv : Env :=
  { tag := fun i => if i = 0 then goodTag 100 else goodTag 200,
    reconnectOk := fun _ => true,
    sinkOk := fun i => i != 0,
    reopenOk := fun _ => true }

/-- A world where the device is permanently faulted and every reconnect
attempt has the given outcome. -/
def downEnv (rok : Bool) : Env :=
  { tag := fun _ => downTag, reconnectOk := fun _ => rok,
    sinkOk := fun _ => true, reopenOk := fun _ => true }

/-- A world where the first two acquisitions fault, reconnects succeed, and
from the third iteration on the device reads cleanly. -/
def flakyEnv : Env :=
  { tag := fun i => if i < 2 then downTag else goodTag 100,
    reconnectOk := fun _ => true,
    sinkOk := fun _ => true, reopenOk := fun _ => true }

/-- A world where the device reads cleanly but every insert_row fails and
every mid-loop reopen fails as well. -/
def deadSinkEnv : Env :=
  { tag := fun _ => goodTag 100, reconnectOk := fun _ => true,
    sinkOk := fun _ => false, reopenOk := fun _ => false }

/-- Claim C4 counterexample: the claim says a humidity value of 99.0 makes
the humidity field absent after validation, but the source test at line 165
is strict (humidity > 99), so 99.0 is kept unchanged. -/
theorem humidity_99_not_nulled_cex :
    (validate { ir_temp := 22, ir := 21, humidity_temp := 22, humidity := 99,
                baro_temp := 20, pressure := 1000, light := 100 }).humidity
      = some 99 := by
  decide

/-- Claim C4 (amended): validation nulls the humidity field exactly when the
humidity value lies outside the closed interval [1, 99], that is when
humidity < 1 or humidity > 99; values inside (1 and 99 included) are left
unchanged. -/
theorem humidity_nulled_iff_outside_closed_interval (r : Readings) :
    ((validate r).humidity = none ∨ (validate r).humidity = some r.humidity)
    ∧ ((validate r).humidity = none ↔ (r.humidity < 1 ∨ 99 < r.humidity)) := by
  unfold validate
  by_cases h : r.humidity < 1 ∨ (99 : ℚ) < r.humidity
  · simp [h]
  · simp [h]

/-- Claim C5: validation nulls the humidity-sensor temperature exactly when
it differs from the infrared temperature of the same cycle by more than 2
units, and never modifies the infrared temperature fields. -/
theorem humidity_temp_crosscheck (r : Readings) :
    ((validate r).humidity_temp = none
      ∨ (validate r).humidity_temp = some r.humidity_temp)
    ∧ ((validate r).humidity_temp = none ↔ 2 < |r.humidity_temp - r.ir_temp|)
    ∧ (validate r).ir_temp = some r.ir_temp
    ∧ (validate r).ir = some r.ir := by
  have habs : (r.humidity_temp < r.ir_temp - 2 ∨ r.humidity_temp > r.ir_temp + 2)
      ↔ 2 < |r.humidity_temp - r.ir_temp| := by
    rw [lt_abs]
    constructor
    · rintro (h | h)
      · right; linarith
      · left; linarith
    · rintro (h | h)
      · right; linarith
      · left; linarith
  have hnull : (validate r).humidity_temp = none
      ↔ (r.humidity_temp < r.ir_temp - 2 ∨ r.humidity_temp > r.ir_temp + 2) := by
    unfold validate
    dsimp only
    split
    · case _ h => simp [h]
    · case _ h => simp [h]
  refine ⟨?_, hnull.trans habs, rfl, rfl⟩
  unfold validate
  dsimp only
  split
  · exact Or.inl rfl
  · exact Or.inr rfl

/-- Claim C6: validation never changes the set of present channels except
possibly nulling humidity_temp and humidity; the other five fields pass
through with their values unmodified. -/
theorem validate_frame (r : Readings) :
    (validate r).ir_temp = some r.ir_temp
    ∧ (validate r).ir = some r.ir
    ∧ (validate r).baro_temp = some r.baro_temp
    ∧ (validate r).pressure = some r.pressure
    ∧ (validate r).light = some r.light
    ∧ ((validate r).humidity_temp = some r.humidity_temp
        ∨ (validate r).humidity_temp = none)
    ∧ ((validate r).humidity = some r.humidity
        ∨ (validate r).humidity = none) := by
  refine ⟨rfl, rfl, rfl, rfl, rfl, ?_, ?_⟩ <;>
    · unfold validate
      dsimp only
      split
      · exact Or.inr rfl
      · exact Or.inl rfl

/-- Claim C8: row serialization always emits the timestamp followed by the
fixed 7-column order ir_temp, humidity_temp, baro_temp, ir, humidity,
pressure, light, with each absent field as an empty cell; in particular the
example sample with ir_temp 21.5, pressure 101.3, light 310 and every other
field absent serializes to the 8 cells of the spec example. -/
theorem row_serialization_fixed_order :
    (∀ (ts : ℕ) (v : VSample),
      rowCells ts v =
        [Cell.timestamp ts, cellOf v.ir_temp, cellOf v.humidity_temp,
         cellOf v.baro_temp, cellOf v.ir, cellOf v.humidity,
         cellOf v.pressure, cellOf v.light])
    ∧ rowCells 5 { ir_temp := some (43/2), ir := none, humidity_temp := none,
                   humidity := none, baro_temp := none,
                   pressure := some (1013/10), light := some 310 }
        = [Cell.timestamp 5, Cell.num (43/2), Cell.empty, Cell.empty,
           Cell.empty, Cell.empty, Cell.num (1013/10), Cell.num 310] := by
  constructor
  · intro ts v
    rfl
  · rfl

/-- Claim C7: acquisition returns the EMPTY signal exactly when the device
faults at some point of the enable/read/disable sequence; in every other
case it returns the full sample, never an incomplete one, and the fault is
absorbed rather than propagated (get_readings is total). -/
theorem get_readings_empty_iff_fault (t : TagBehavior) :
    get_readings t = none
      ↔ (t.enableOk = false ∨ t.irRead = none ∨ t.humidityRead = none
          ∨ t.barometerRead = none ∨ t.lightRead = none
          ∨ t.disableOk = false) := by
  obtain ⟨e, ir, h, b, l, d⟩ := t
  cases e <;> cases ir <;> cases h <;> cases b <;> cases l <;> cases d <;>
    simp [get_readings, get_readings_run]

/-- Claim C9 counterexample: the claim says the disable step is guaranteed
to run even on an early fault exit, but when the humidity read raises the
connection-lost fault the try block is aborted before the disable_sensors
call at line 91, so the disables never run. -/
theorem disable_skipped_on_read_fault_cex :
    get_readings_run { enableOk := true, irRead := some (20, 21),
                       humidityRead := none, barometerRead := some (22, 1000),
                       lightRead := some 100, disableOk := true }
      = (none, false) := by
  rfl

/-- Claim C9 (amended): the disable step runs exactly when the enable step
and all four channel reads succeed; a fault during enable or any read
aborts the acquisition before the disables, leaving the device in an
undefined enabled state. -/
theorem disable_runs_iff_reads_succeed (t : TagBehavior) :
    (get_readings_run t).2
      = (t.enableOk && t.irRead.isSome && t.humidityRead.isSome
          && t.barometerRead.isSome && t.lightRead.isSome) := by
  obtain ⟨e, ir, h, b, l, d⟩ := t
  cases e <;> cases ir <;> cases h <;> cases b <;> cases l <;> cases d <;> rfl

/-- Unfolding lemma: a run of zero iterations leaves the state as is. -/
theorem runFrom_zero (e : Env) (i : ℕ) (s : LoopState) :
    runFrom e i 0 s = .next s := rfl

/-- Unfolding lemma: a run of k+1 iterations performs one loop body and
continues when the body does. -/
theorem runFrom_succ (e : Env) (i k : ℕ) (s : LoopState) :
    runFrom e i (k + 1) s
      = match loopBody e i s with
        | .next s2 => runFrom e (i + 1) k s2
        | .exited c => .exited c
        | .crashed => .crashed := rfl

/-- An iteration whose acquisition and insert both succeed records exactly
one row at the current index, sleeps once and advances the index. -/
theorem loopBody_success (e : Env) (i : ℕ) (s : LoopState) (r : Readings)
    (h : get_readings (e.tag i) = some r) (hs : e.sinkOk i = true) :
    loopBody e i s
      = .next { row := s.row + 1, session := s.session,
                appended := s.appended ++ [(s.row, rowCells i (validate r))],
                slept := s.slept + 1 } := by
  simp [loopBody, h, append_readings, hs]

/-- An iteration with empty readings and a succeeding reconnect changes
nothing: no row, no sleep, no index advance. -/
theorem loopBody_empty_ok (e : Env) (i : ℕ) (s : LoopState)
    (h : get_readings (e.tag i) = none) (hr : e.reconnectOk i = true) :
    loopBody e i s = .next s := by
  simp [loopBody, h, hr]

/-- An iteration with empty readings whose reconnect fails re-raises the
exception, escaping the loop. -/
theorem loopBody_empty_crash (e : Env) (i : ℕ) (s : LoopState)
    (h : get_readings (e.tag i) = none) (hr : e.reconnectOk i = false) :
    loopBody e i s = .crashed := by
  simp [loopBody, h, hr]

/-- An iteration whose insert signals STALE and whose reopen succeeds
continues with a fresh worksheet handle, appending nothing, sleeping not at
all and keeping the index. -/
theorem loopBody_stale_reopen (e : Env) (i : ℕ) (s : LoopState) (r : Readings)
    (h : get_readings (e.tag i) = some r) (hs : e.sinkOk i = false)
    (hro : e.reopenOk i = true) :
    loopBody e i s = .next { s with session := s.session + 1 } := by
  simp [loopBody, h, append_readings, hs, login_open_sheet, hro]

/-- An iteration whose insert signals STALE and whose reopen fails exits the
process with code 1. -/
theorem loopBody_stale_exit (e : Env) (i : ℕ) (s : LoopState) (r : Readings)
    (h : get_readings (e.tag i) = some r) (hs : e.sinkOk i = false)
    (hro : e.reopenOk i = false) :
    loopBody e i s = .exited 1 := by
  simp [loopBody, h, append_readings, hs, login_open_sheet, hro]

/-- A run of one iteration finishes the way its single loop body does. -/
theorem runFrom_one (e : Env) (i : ℕ) (s : LoopState) :
    runFrom e i 1 s = loopBody e i s := by
  show (match loopBody e i s with
        | .next s2 => runFrom e (i + 1) 0 s2
        | .exited c => .exited c
        | .crashed => .crashed) = loopBody e i s
  cases loopBody e i s <;> rfl

/-- A run of two iterations whose bodies both continue ends in the second
state of the second body. -/
theorem runFrom_two (e : Env) (i : ℕ) (s t u : LoopState)
    (h1 : loopBody e i s = .next t) (h2 : loopBody e (i + 1) t = .next u) :
    runFrom e i 2 s = .next u := by
  show (match loopBody e i s with
        | .next s2 => runFrom e (i + 1) 1 s2
        | .exited c => .exited c
        | .crashed => .crashed) = .next u
  rw [h1]
  show runFrom e (i + 1) 1 t = .next u
  rw [runFrom_one, h2]

/-- N iterations of empty acquisition with succeeding reconnects are a
no-op: the run continues from the same state, N iterations later. -/
theorem runFrom_skip_failures (e : Env) (s : LoopState) (k N : ℕ) :
    ∀ i : ℕ,
    (∀ j, j < N → get_readings (e.tag (i + j)) = none
        ∧ e.reconnectOk (i + j) = true) →
    runFrom e i (N + k) s = runFrom e (i + N) k s := by
  induction N with
  | zero =>
      intro i _
      simp
  | succ n ih =>
      intro i hfail
      have h0 := hfail 0 (by omega)
      rw [Nat.add_zero] at h0
      have hfail2 : ∀ j, j < n → get_readings (e.tag (i + 1 + j)) = none
          ∧ e.reconnectOk (i + 1 + j) = true := by
        intro j hj
        have := hfail (j + 1) (by omega)
        rwa [show i + (j + 1) = i + 1 + j by omega] at this
      calc runFrom e i (n + 1 + k) s
          = runFrom e (i + 1) (n + k) s := by
            rw [show n + 1 + k = (n + k) + 1 by omega, runFrom_succ,
                loopBody_empty_ok e i s h0.1 h0.2]
        _ = runFrom e (i + 1 + n) k s := ih (i + 1) hfail2
        _ = runFrom e (i + (n + 1)) k s := by
            rw [show i + 1 + n = i + (n + 1) by omega]

/-- Helper evaluation: round2 keeps the integer 100. -/
theorem round2_100 : round2 100 = 100 := by
  norm_num [round2, roundHalfEven]

/-- Helper evaluation: round2 keeps the integer 200. -/
theorem round2_200 : round2 200 = 200 := by
  norm_num [round2, roundHalfEven]

/-- Helper evaluation: under goodTag v the acquisition succeeds with the
expected readings dictionary. -/
theorem get_readings_goodTag (v : ℚ) (hv : round2 v = v) :
    get_readings (goodTag v) = some (goodReadings v) := by
  simp [get_readings, get_readings_run, goodTag, goodReadings, hv]
  norm_num [round2, roundHalfEven]

/-- Helper evaluation: under downTag the acquisition reports EMPTY. -/
theorem get_readings_downTag : get_readings downTag = none := rfl

/-- Helper evaluation: the concrete STALE world runs two iterations into
exactly one appended row, built from the second (fresh) acquisition. -/
theorem staleEnv_run :
    runFrom staleEnv 0 2 initState
      = .next { row := 2, session := 1,
                appended := [(1, rowCells 1 (validate (goodReadings 200)))],
                slept := 1 } := by
  have h0 : get_readings (staleEnv.tag 0) = some (goodReadings 100) :=
    get_readings_goodTag 100 round2_100
  have h1 : get_readings (staleEnv.tag (0 + 1)) = some (goodReadings 200) :=
    get_readings_goodTag 200 round2_200
  exact runFrom_two staleEnv 0 initState _ _
    (loopBody_stale_reopen staleEnv 0 initState (goodReadings 100) h0 rfl rfl)
    (loopBody_success staleEnv (0 + 1) _ (goodReadings 200) h1 rfl)

/-- Claim C1 counterexample: after a STALE append, a successful reopen and
a successful retry, exactly one row is appended at the same index, but its
content is a freshly acquired sample, not the Row content of the failed
attempt: in the concrete world the failed attempt carried light 100 and
the appended row carries light 200. -/
theorem stale_retry_not_same_row_cex :
    runFrom staleEnv 0 2 initState
      = .next { row := 2, session := 1,
                appended := [(1, rowCells 1 (validate (goodReadings 200)))],
                slept := 1 }
    ∧ validate (goodReadings 200) ≠ validate (goodReadings 100) := by
  refine ⟨staleEnv_run, ?_⟩
  intro h
  have hl := congrArg VSample.light h
  simp [validate, goodReadings] at hl

/-- Claim C1 (amended): a row whose append signals STALE is never inserted;
after a successful reopen the loop re-enters acquisition, and the retry
appends exactly one row at the same 1-based index, built from the freshly
acquired sample (not the failed Row content), never zero rows and never
two. -/
theorem stale_retry_same_index_fresh_sample
    (e : Env) (i : ℕ) (s : LoopState) (r0 r1 : Readings)
    (h0 : get_readings (e.tag i) = some r0)
    (hs0 : e.sinkOk i = false)
    (hro : e.reopenOk i = true)
    (h1 : get_readings (e.tag (i + 1)) = some r1)
    (hs1 : e.sinkOk (i + 1) = true) :
    runFrom e i 2 s
      = .next { row := s.row + 1, session := s.session + 1,
                appended := s.appended ++ [(s.row, rowCells (i + 1) (validate r1))],
                slept := s.slept + 1 } := by
  exact runFrom_two e i s _ _
    (loopBody_stale_reopen e i s r0 h0 hs0 hro)
    (loopBody_success e (i + 1) _ r1 h1 hs1)

/-- Claim C1 witness: the amended theorem applied to the concrete STALE
world. -/
theorem stale_retry_same_index_fresh_sample_wit :
    runFrom staleEnv 0 2 initState
      = .next { row := 2, session := 1,
                appended := [(1, rowCells 1 (validate (goodReadings 200)))],
                slept := 1 } :=
  stale_retry_same_index_fresh_sample staleEnv 0 initState
    (goodReadings 100) (goodReadings 200)
    (get_readings_goodTag 100 round2_100) rfl rfl
    (get_readings_goodTag 200 round2_200) rfl

/-- Claim C2 counterexample: the claim says faults in the loop never
propagate as an unhandled program failure, but when the device stays away
and the reconnect call itself fails, reconnect re-raises (line 117) with no
handler in the loop, so the exception escapes. -/
theorem reconnect_failure_crashes_cex :
    runFrom (downEnv false) 0 1 initState = .crashed := rfl

/-- Claim C2 (amended): a transient device fault is recovered locally when
the subsequent reconnect succeeds (the loop continues with its state
untouched); but when the reconnect itself fails the fault propagates out of
the loop as an unhandled failure. -/
theorem device_fault_recovery_characterization
    (e : Env) (i : ℕ) (s : LoopState)
    (h : get_readings (e.tag i) = none) :
    (e.reconnectOk i = true → loopBody e i s = .next s)
    ∧ (e.reconnectOk i = false → loopBody e i s = .crashed) := by
  constructor
  · intro hr
    exact loopBody_empty_ok e i s h hr
  · intro hr
    exact loopBody_empty_crash e i s h hr

/-- Claim C2 witness: both branches of the characterization at concrete
worlds. -/
theorem device_fault_recovery_characterization_wit :
    loopBody (downEnv true) 0 initState = .next initState
    ∧ loopBody (downEnv false) 0 initState = .crashed :=
  ⟨(device_fault_recovery_characterization (downEnv true) 0 initState rfl).1 rfl,
   (device_fault_recovery_characterization (downEnv false) 0 initState rfl).2 rfl⟩

/-- Claim C3: N consecutive EMPTY acquisitions with succeeding reconnects
followed by one successful acquisition and append produce exactly one row,
at the index unchanged since before the failures began, with no cadence
sleep during the retries (the single sleep is the one after the successful
append). -/
theorem empty_retries_single_row
    (N : ℕ) (e : Env) (i : ℕ) (s : LoopState) (r : Readings)
    (hfail : ∀ j, j < N → get_readings (e.tag (i + j)) = none
        ∧ e.reconnectOk (i + j) = true)
    (hok : get_readings (e.tag (i + N)) = some r)
    (hs : e.sinkOk (i + N) = true) :
    runFrom e i (N + 1) s
      = .next { row := s.row + 1, session := s.session,
                appended := s.appended ++ [(s.row, rowCells (i + N) (validate r))],
                slept := s.slept + 1 } := by
  rw [runFrom_skip_failures e s 1 N i hfail, runFrom_one,
      loopBody_success e (i + N) s r hok hs]

/-- Claim C3 witness: the theorem applied to the concrete flaky world with
two EMPTY acquisitions before the success. -/
theorem empty_retries_single_row_wit :
    runFrom flakyEnv 0 3 initState
      = .next { row := 2, session := 0,
                appended := [(1, rowCells 2 (validate (goodReadings 100)))],
                slept := 1 } :=
  empty_retries_single_row 2 flakyEnv 0 initState (goodReadings 100)
    (fun j hj => by
      have hlt : 0 + j < 2 := by omega
      constructor
      · show get_readings (if 0 + j < 2 then downTag else goodTag 100) = none
        rw [if_pos hlt]
        exact get_readings_downTag
      · rfl)
    (get_readings_goodTag 100 round2_100)
    rfl

/-- Claim C10: when an append signals STALE and the subsequent
login_open_sheet fails, the process exits with code 1 at once, whatever
number of iterations would have remained: mid-loop reopen failures take the
same fatal path as startup configuration failures and are never
retried. -/
theorem stale_then_reopen_failure_exits
    (e : Env) (i k : ℕ) (s : LoopState) (r : Readings)
    (h : get_readings (e.tag i) = some r)
    (hs : e.sinkOk i = false)
    (hro : e.reopenOk i = false) :
    runFrom e i (k + 1) s = .exited 1 := by
  rw [runFrom_succ, loopBody_stale_exit e i s r h hs hro]

/-- Claim C10 witness: the theorem at the concrete dead-sink world, with 9
iterations remaining after the exit. -/
theorem stale_then_reopen_failure_exits_wit :
    runFrom deadSinkEnv 0 10 initState = .exited 1 :=
  stale_then_reopen_failure_exits deadSinkEnv 0 9 initState (goodReadings 100)
    (get_readings_goodTag 100 round2_100) rfl rfl

end SensortagWeather
